import Mathlib

/-!
Verification of the miniclue pipeline-orchestration core.

This file gives a shallow embedding, in Lean, of the state the pipeline keeps
for a single unit of work (a "lecture") in the relational store, of the atomic
store operations in the various `db_utils.py` modules, and of the stage
handlers (orchestrators) built from them.  External collaborators (the LLM
generation capability, object storage, the tokenizer) are passed in as
function or flag parameters; everything that touches the store is translated
from the Python source.

Conventions used throughout:
  - The store models exactly one lecture, so the `lecture_id` keys disappear;
    a WHERE clause on `lecture_id` always matches.
  - Each `async with conn.transaction()` block is one atomic Lean function;
    PostgreSQL row locking serializes concurrent UPDATEs of the same row, so
    concurrent handler executions are modelled as interleavings of these
    atomic blocks.
  - A Python exception that escapes a handler is modelled by a `Bool` flag
    (`true` = the handler raised, so the bus would redeliver the job).
  - jsonb error slots are modelled as lists of structured entries; a SQL
    `UPDATE ... SET slot = <one object>` becomes replacing the list by a
    one-entry list.
-/

namespace Miniclue

/-! ## Data model (rows of the relational store) -/

/-- A row of the `slides` table (`processed_chunks` / `total_chunks` are used
only by the pgmq-based variant of the pipeline). -/
structure Slide where
  id : Nat
  slideNumber : Nat
  rawText : String
  processedChunks : Nat
  totalChunks : Nat
deriving DecidableEq, Repr

/-- A row of the `chunks` table. -/
structure Chunk where
  id : Nat
  slideId : Nat
  slideNumber : Nat
  chunkIndex : Nat
  text : String
  tokenCount : Nat
deriving DecidableEq, Repr

/-- A row of the `slide_images` table.  `imageType` is NULL until the analysis
stage fills it in (`full_slide_render` rows are typed at insert time). -/
structure SlideImage where
  id : Nat
  slideId : Nat
  imageHash : Nat
  storagePath : String
  imageType : Option String
  ocrText : Option String
  altText : Option String
deriving DecidableEq, Repr

/-- A row of the `explanations` table.  `metaFallback` is the `"fallback":
true` marker the explanation orchestrator puts into the metadata jsonb when it
persists a placeholder after a failed LLM call. -/
structure Explanation where
  slideId : Nat
  slideNumber : Nat
  content : String
  oneLiner : Option String
  slideType : String
  metaFallback : Bool
deriving DecidableEq, Repr

/-- The (at most one) row of the `summaries` table for this lecture. -/
structure SummaryRow where
  content : String
  metaGen : String
deriving DecidableEq, Repr

/-- A row of the `embeddings` table (unique per `chunk_id`). -/
structure EmbeddingRow where
  chunkId : Nat
  vector : String
  metaGen : String
deriving DecidableEq, Repr

/-- One structured entry of a per-stage `*_error_details` jsonb slot. -/
structure ErrEntry where
  service : String
  slideRef : Option Nat
  message : String
deriving DecidableEq, Repr

/-- The durable store, restricted to one lecture: the `lectures` row (status,
rendezvous flag, counters, per-track error slots) and the dependent tables.
The `next*Id` counters model the database generating fresh primary keys. -/
structure Store where
  status : String
  embeddingsComplete : Bool
  totalSlides : Nat
  processedSlides : Nat
  totalSubImages : Nat
  processedSubImages : Nat
  explanationErrorDetails : List ErrEntry
  searchErrorDetails : List ErrEntry
  slides : List Slide
  chunks : List Chunk
  slideImages : List SlideImage
  explanations : List Explanation
  summaries : Option SummaryRow
  embeddings : List EmbeddingRow
  nextSlideId : Nat
  nextChunkId : Nat
  nextImageId : Nat
deriving DecidableEq, Repr

/-- A job handed to the message bus (one constructor per outbound topic or
queue; payload fields as in the publish calls of the source). -/
inductive Job where
  | explanation (slideId slideNumber totalSlides : Nat) (slideImagePath : String)
  | imageAnalysis (slideImageId imageHash : Nat)
  | embedding
  | explanationQueue (slideId slideNumber : Nat)
  | summary
deriving DecidableEq, Repr

/-! ## Sorting helper (SQL ORDER BY) -/

/-- Insert into a sorted list, used to model a SQL ORDER BY clause. -/
def insertLe {α : Type} (le : α → α → Bool) (a : α) : List α → List α
  | [] => [a]
  | b :: bs => if le a b then a :: b :: bs else b :: insertLe le a bs

/-- Insertion sort, used to model a SQL ORDER BY clause. -/
def sortLe {α : Type} (le : α → α → Bool) : List α → List α
  | [] => []
  | a :: as => insertLe le a (sortLe le as)

/-! ## Atomic store operations (the `db_utils.py` modules)

Every function here is one SQL statement (or one transaction, where the
source wraps several statements in `conn.transaction()`). -/

/-- `verify_lecture_exists` (identical in the embedding / summary /
explanation / image-analysis / ingestion `db_utils.py`): the lecture row
exists and `status NOT IN ('failed', 'complete')`. -/
def verify_lecture_exists (s : Store) : Bool :=
  !(s.status == "failed" || s.status == "complete")

/-- `explanation_exists` (explanation/db_utils.py): a row of `explanations`
with this `slide_id` already exists. -/
def explanation_exists (s : Store) (slideId : Nat) : Bool :=
  s.explanations.any (fun e => e.slideId == slideId)

/-- The SQL statement executed by `save_explanation`
(explanation/db_utils.py): INSERT INTO explanations ... ON CONFLICT
(slide_id) DO NOTHING, applied to already-marshalled parameter values.  (The
marshalling itself — which evaluates `result.one_liner` — is
`save_explanation`, defined with the `ExplanationResult` schema below.) -/
def explanations_insert (s : Store) (slideId slideNumber : Nat) (content : String)
    (oneLiner : Option String) (slideType : String) (metaFallback : Bool) : Store :=
  if s.explanations.any (fun e => e.slideId == slideId) then s
  else { s with explanations :=
          s.explanations ++ [⟨slideId, slideNumber, content, oneLiner, slideType, metaFallback⟩] }

/-- `increment_progress_and_check_completion` (explanation/db_utils.py): one
transaction that (1) runs `UPDATE lectures SET processed_slides =
processed_slides + 1` without a RETURNING clause, (2) re-reads
`processed_slides, total_slides` in a separate SELECT, and (3) if `processed
>= total`, sets the status to 'summarising' and reports completion.  The row
lock taken by the UPDATE serializes concurrent executions of this
transaction. -/
def increment_progress_and_check_completion (s : Store) : Store × Bool :=
  let s1 := { s with processedSlides := s.processedSlides + 1 }
  if s1.processedSlides ≥ s1.totalSlides then
    ({ s1 with status := "summarising" }, true)
  else
    (s1, false)

/-- `increment_processed_images_count` (image_analysis/db_utils.py): `UPDATE
lectures SET processed_sub_images = processed_sub_images + 1 ... RETURNING
processed_sub_images, total_sub_images` — the new count and the total come
back from the atomic UPDATE itself. -/
def increment_processed_images_count (s : Store) : Store × Nat × Nat :=
  let s1 := { s with processedSubImages := s.processedSubImages + 1 }
  (s1, s1.processedSubImages, s1.totalSubImages)

/-- `update_image_analysis_results` (image_analysis/db_utils.py): propagate
type / ocr_text / alt_text to every `slide_images` row with this hash. -/
def update_image_analysis_results (s : Store) (imageHash : Nat)
    (imageType ocrText altText : String) : Store :=
  { s with slideImages := s.slideImages.map (fun im =>
      if im.imageHash == imageHash then
        { im with imageType := some imageType, ocrText := some ocrText, altText := some altText }
      else im) }

/-- `set_embeddings_complete` (embedding/db_utils.py): `UPDATE lectures SET
embeddings_complete = TRUE ... RETURNING status`. -/
def set_embeddings_complete (s : Store) : Store × String :=
  let s1 := { s with embeddingsComplete := true }
  (s1, s1.status)

/-- `set_lecture_status_to_complete` (embedding/db_utils.py and
summary/db_utils.py): `UPDATE lectures SET status = 'complete'`. -/
def set_lecture_status_to_complete (s : Store) : Store :=
  { s with status := "complete" }

/-- `check_summary_exists` (summary/db_utils.py). -/
def check_summary_exists (s : Store) : Bool :=
  s.summaries.isSome

/-- `get_all_explanations` (summary/db_utils.py): contents ordered by
slide_number. -/
def get_all_explanations (s : Store) : List String :=
  (sortLe (fun a b => a.slideNumber ≤ b.slideNumber) s.explanations).map (·.content)

/-- `save_summary` (summary/db_utils.py): INSERT INTO summaries ... ON
CONFLICT (lecture_id) DO UPDATE SET content = EXCLUDED.content, metadata =
EXCLUDED.metadata — an upsert that replaces an existing row. -/
def save_summary (s : Store) (content metaGen : String) : Store :=
  { s with summaries := some ⟨content, metaGen⟩ }

/-- `_record_explanation_error` (explanation/orchestrator.py): read the
`explanation_error_details` slot, normalize it to a list, append the new
structured entry, and write the whole list back. -/
def record_explanation_error (s : Store) (slideId : Nat) (message : String) : Store :=
  { s with explanationErrorDetails :=
      s.explanationErrorDetails ++ [⟨"explanation", some slideId, message⟩] }

/-- The `except` branch of `process_embedding_job`
(embedding/orchestrator.py): `UPDATE lectures SET status = 'failed',
search_error_details = $1::jsonb` where `$1` is the single new error object —
the slot is replaced, not appended to. -/
def embedding_failure_update (s : Store) (message : String) : Store :=
  { s with status := "failed",
           searchErrorDetails := [⟨"embedding", none, message⟩] }

/-- The `except` branch of `process_image_analysis_job`
(image_analysis/orchestrator.py): `UPDATE lectures SET search_error_details =
$1::jsonb` with the single new error object. -/
def image_analysis_failure_update (s : Store) (slideImageId : Nat) (message : String) : Store :=
  { s with searchErrorDetails := [⟨"image_analysis", some slideImageId, message⟩] }

/-- `get_or_create_slide` (ingestion/db_utils.py): SELECT by
(lecture_id, slide_number); if absent, INSERT ... ON CONFLICT DO UPDATE
RETURNING id. -/
def get_or_create_slide (s : Store) (slideNumber : Nat) (rawText : String) : Store × Nat :=
  match s.slides.find? (fun sl => sl.slideNumber == slideNumber) with
  | some sl => (s, sl.id)
  | none =>
    ({ s with slides := s.slides ++ [⟨s.nextSlideId, slideNumber, rawText, 0, 0⟩],
              nextSlideId := s.nextSlideId + 1 }, s.nextSlideId)

/-- `get_or_create_chunk` (ingestion/db_utils.py): SELECT by
(slide_id, chunk_index); if absent, INSERT ... ON CONFLICT DO NOTHING
RETURNING id. -/
def get_or_create_chunk (s : Store) (slideId slideNumber chunkIndex : Nat)
    (text : String) (tokenCount : Nat) : Store × Nat :=
  match s.chunks.find? (fun c => c.slideId == slideId && c.chunkIndex == chunkIndex) with
  | some c => (s, c.id)
  | none =>
    ({ s with chunks := s.chunks ++
                [⟨s.nextChunkId, slideId, slideNumber, chunkIndex, text, tokenCount⟩],
              nextChunkId := s.nextChunkId + 1 }, s.nextChunkId)

/-- `insert_slide_image` (ingestion/db_utils.py): a plain INSERT INTO
slide_images ... RETURNING id — there is no ON CONFLICT clause, so every call
adds a fresh row. -/
def insert_slide_image (s : Store) (slideId imageHash : Nat) (storagePath : String)
    (imageType : Option String) : Store × Nat :=
  ({ s with slideImages := s.slideImages ++
              [⟨s.nextImageId, slideId, imageHash, storagePath, imageType, none, none⟩],
            nextImageId := s.nextImageId + 1 }, s.nextImageId)

/-- `set_lecture_parsing` (ingestion/db_utils.py). -/
def set_lecture_parsing (s : Store) (totalSlides : Nat) : Store :=
  { s with status := "parsing", totalSlides := totalSlides }

/-- `update_lecture_sub_image_count` (ingestion/db_utils.py). -/
def update_lecture_sub_image_count (s : Store) (totalSubImages : Nat) : Store :=
  { s with totalSubImages := totalSubImages }

/-- `update_lecture_status` (ingestion/db_utils.py), without error details. -/
def update_lecture_status (s : Store) (status : String) : Store :=
  { s with status := status }

/-- The statement at the top of `ingest` (ingestion/orchestrator.py):
`UPDATE lectures SET search_error_details = NULL, explanation_error_details =
NULL`. -/
def clear_track_errors (s : Store) : Store :=
  { s with searchErrorDetails := [], explanationErrorDetails := [] }

/-- `get_slides_with_images_for_lecture` (ingestion/db_utils.py): slides LEFT
JOIN their `full_slide_render` image rows, ordered by slide_number.  A slide
with no render row yields one row with a NULL path; a slide with several
render rows yields one row per match. -/
def get_slides_with_images_for_lecture (s : Store) : List (Slide × Option String) :=
  (sortLe (fun a b => a.slideNumber ≤ b.slideNumber) s.slides).flatMap (fun sl =>
    match s.slideImages.filter
        (fun im => im.slideId == sl.id && im.imageType == some "full_slide_render") with
    | [] => [(sl, none)]
    | ims => ims.map (fun im => (sl, some im.storagePath)))

/-! ## Image classification (ingest/image_processing.py)

Python string primitives (`str.lower`, `len`, `in`, `str.split()`) are
modelled by structurally recursive functions over the character data so that
they evaluate inside the kernel. -/

/-- Python `str.lower()`. -/
def pyLower (s : String) : String :=
  ⟨s.data.map Char.toLower⟩

/-- Python `len(s)` on a string. -/
def pyLen (s : String) : Nat :=
  s.data.length

/-- Whether the first list is a prefix of the second. -/
def isPrefixCharB : List Char → List Char → Bool
  | [], _ => true
  | _ :: _, [] => false
  | a :: as, b :: bs => a == b && isPrefixCharB as bs

/-- Whether the first list occurs as a contiguous sublist of the second. -/
def containsCharB (needle : List Char) : List Char → Bool
  | [] => isPrefixCharB needle []
  | b :: bs => isPrefixCharB needle (b :: bs) || containsCharB needle bs

/-- Python `needle in hay` on strings (substring test). -/
def pyInStr (needle hay : String) : Bool :=
  containsCharB needle.data hay.data

/-- Helper for `pySplitWhitespace`: accumulates the current word reversed. -/
def pySplitAux : List Char → List Char → List String
  | [], acc => if acc.isEmpty then [] else [⟨acc.reverse⟩]
  | c :: cs, acc =>
    if c.isWhitespace then
      if acc.isEmpty then pySplitAux cs [] else ⟨acc.reverse⟩ :: pySplitAux cs []
    else pySplitAux cs (c :: acc)

/-- Python `s.split()` with no separator: split on whitespace runs, dropping
empty pieces. -/
def pySplitWhitespace (s : String) : List String :=
  pySplitAux s.data []

/-- The `content_keywords` set of `_classify_image`. -/
def content_keywords : List String :=
  ["diagram", "chart", "graph", "table", "screenshot", "code", "equation", "map", "plot"]

/-- The `decorative_keywords` set of `_classify_image`. -/
def decorative_keywords : List String :=
  ["logo", "icon", "banner", "background", "illustration", "photo", "picture",
   "drawing", "artwork", "decoration"]

/-- `_classify_image` (ingest/image_processing.py), translated clause by
clause: keyword tests on the lowercased caption come first, then the OCR
length threshold, then the caption word-count / length threshold. -/
def classify_image (altText ocrText : String) : String :=
  let lowerAltText := pyLower altText
  if content_keywords.any (fun kw => pyInStr kw lowerAltText) then "content"
  else if decorative_keywords.any (fun kw => pyInStr kw lowerAltText) then "decorative"
  else if ocrText != "" && pyLen ocrText ≥ 30 then "content"
  else if altText != "" && (pySplitWhitespace altText).length ≥ 4 && pyLen altText ≥ 30 then
    "content"
  else "decorative"

/-! ## Ingestion stage (ingestion/orchestrator.py, ingestion/image_processing.py)

A PDF page is abstracted to its extracted text, its embedded images (as
perceptual hashes), and whether rendering the full-page pixmap succeeds; the
tokenizer-based chunker is an external collaborator passed as a function. -/

/-- One page of the parsed document, as the ingest stage consumes it. -/
structure Page where
  rawText : String
  renderOk : Bool
  renderHash : Nat
  images : List Nat
deriving DecidableEq, Repr

/-- A pending image-analysis dispatch collected during the ingest loop. -/
structure AnalysisJobSeed where
  slideImageId : Nat
  imageHash : Nat
deriving DecidableEq, Repr

/-- The S3 key used by `render_and_upload_slide_image` for the full-page
render of a slide. -/
def full_slide_key (slideNumber : Nat) : String :=
  "lectures/slides/" ++ toString slideNumber ++ "/full_slide.png"

/-- The S3 key used by `process_slide_sub_images` for a newly seen
sub-image. -/
def sub_image_key (imageHash : Nat) : String :=
  "lectures/images/" ++ toString imageHash ++ ".png"

/-- `render_and_upload_slide_image` (ingestion/image_processing.py): render
the page, upload the PNG, and insert a `full_slide_render` row.  The whole
body is wrapped in `try/except` that only logs, so a rendering or upload
failure (modelled by `renderOk = false`) leaves the store untouched and does
not raise. -/
def render_and_upload_slide_image (page : Page) (slideNumber slideId : Nat)
    (s : Store) : Store :=
  if page.renderOk then
    (insert_slide_image s slideId page.renderHash (full_slide_key slideNumber)
      (some "full_slide_render")).1
  else s

/-- The loop body of `process_slide_sub_images`
(ingestion/image_processing.py): for each extracted image, dedupe by
perceptual hash against the per-ingest `processed_images_map`, upload new
images, insert an instance row (type NULL) for every placement, and collect
one analysis-job seed per new image. -/
def process_sub_images_loop (slideId : Nat) :
    List Nat → Store → List (Nat × String) → List AnalysisJobSeed →
    Store × List (Nat × String) × List AnalysisJobSeed
  | [], s, m, seeds => (s, m, seeds)
  | h :: rest, s, m, seeds =>
    match m.lookup h with
    | some path =>
      process_sub_images_loop slideId rest (insert_slide_image s slideId h path none).1 m seeds
    | none =>
      let path := sub_image_key h
      let r := insert_slide_image s slideId h path none
      process_sub_images_loop slideId rest r.1 (m ++ [(h, path)]) (seeds ++ [⟨r.2, h⟩])

/-- The per-chunk loop of `ingest`: `get_or_create_chunk` for each chunk
produced by the tokenizer. -/
def insert_chunks_loop (slideId slideNumber : Nat) :
    Nat → List (String × Nat) → Store → Store
  | _, [], s => s
  | idx, (text, tokenCount) :: rest, s =>
    insert_chunks_loop slideId slideNumber (idx + 1) rest
      (get_or_create_chunk s slideId slideNumber idx text tokenCount).1

/-- The per-page loop of `ingest` (ingestion/orchestrator.py): one
transaction per page — get-or-create the slide, get-or-create its chunks,
render-and-upload the full-page image, then process the sub-images. -/
def ingest_page_loop (chunker : String → List (String × Nat)) :
    List (Nat × Page) → Store → List (Nat × String) → List AnalysisJobSeed →
    Store × List (Nat × String) × List AnalysisJobSeed
  | [], s, m, seeds => (s, m, seeds)
  | (pageIndex, page) :: rest, s, m, seeds =>
    let slideNumber := pageIndex + 1
    let r1 := get_or_create_slide s slideNumber page.rawText
    let s2 := insert_chunks_loop r1.2 slideNumber 0 (chunker page.rawText) r1.1
    let s3 := render_and_upload_slide_image page slideNumber r1.2 s2
    let r4 := process_sub_images_loop r1.2 page.images s3 m seeds
    ingest_page_loop chunker rest r4.1 r4.2.1 r4.2.2

/-- `ingest` (ingestion/orchestrator.py): guard, clear track errors, set
'parsing' with the page count, run the per-page loop, record the unique
sub-image count, set 'explaining', then publish one explanation job per
slide-with-render row and either the collected image-analysis jobs or (if no
sub-images) the embedding job directly. -/
def ingest (chunker : String → List (String × Nat)) (doc : List Page)
    (s : Store) : Store × List Job :=
  if !(verify_lecture_exists s) then (s, [])
  else
    let s0 := clear_track_errors s
    let totalSlides := doc.length
    let s1 := set_lecture_parsing s0 totalSlides
    let r := ingest_page_loop chunker doc.enum s1 [] []
    let seeds := r.2.2
    let totalSubImages := r.2.1.length
    let s3 := update_lecture_sub_image_count r.1 totalSubImages
    let s4 := update_lecture_status s3 "explaining"
    let explanationJobs := (get_slides_with_images_for_lecture s4).flatMap (fun row =>
      match row.2 with
      | some path => [Job.explanation row.1.id row.1.slideNumber totalSlides path]
      | none => [])
    let tailJobs :=
      if totalSubImages > 0 then
        seeds.map (fun sd => Job.imageAnalysis sd.slideImageId sd.imageHash)
      else [Job.embedding]
    (s4, explanationJobs ++ tailJobs)

/-! ## Explanation stage (explanation/orchestrator.py) -/

/-- The structured result of the explanation generation capability
(app/schemas/explanation.py `ExplanationResult`): the pydantic model
declares exactly two fields, `slide_purpose` and `explanation`.  (The prompt
in llm_utils asks the model for a `one_liner` as well, and some constructor
calls pass `one_liner=`, but pydantic ignores keyword arguments for fields
the schema does not declare, so the object never carries one.) -/
structure ExplanationResult where
  slidePurpose : String
  explanation : String
deriving DecidableEq, Repr

/-- Pydantic attribute access `result.one_liner` on `ExplanationResult`: the
schema declares no `one_liner` field, so the access raises AttributeError on
every object — modelled as `none` (the caller treats `none` as the raised
exception). -/
def ExplanationResult.one_liner (_ : ExplanationResult) : Option String :=
  none

/-- The minimal fallback `ExplanationResult` built when the LLM call fails
(explanation/orchestrator.py builds it with `explanation=` and
`slide_purpose="error"` only). -/
def fallback_explanation_result : ExplanationResult :=
  ⟨"error",
   "Unable to generate explanation due to technical difficulties. Please try again."⟩

/-- `save_explanation` (explanation/db_utils.py): marshal the SQL parameters
— which evaluates `result.explanation`, `result.one_liner` and
`result.slide_purpose` — then execute the insert.  Because the schema
declares no `one_liner` field, the marshalling raises AttributeError
(modelled as `none`) on every call, before any SQL executes. -/
def save_explanation (s : Store) (slideId slideNumber : Nat)
    (result : ExplanationResult) (metaFallback : Bool) : Option Store :=
  match result.one_liner with
  | none => none
  | some ol =>
    some (explanations_insert s slideId slideNumber result.explanation (some ol)
      result.slidePurpose metaFallback)

/-- `process_explanation_job` (explanation/orchestrator.py).  External
collaborators: `imageOk` models the S3 download of the slide render,
`apiKeyOk` the per-tenant key fetch, and `gen` the LLM call (`none` = the
call raised).  Result: the store, the published jobs, and whether the handler
re-raised (so the bus would redeliver).  When `save_explanation` raises (its
`result.one_liner` access — which it always does), the top-level `except`
records the error and re-raises, so the commit phase is never reached. -/
def process_explanation_job (gen : Option ExplanationResult) (imageOk apiKeyOk : Bool)
    (slideId slideNumber : Nat) (s : Store) : Store × List Job × Bool :=
  if !(verify_lecture_exists s) then (s, [], false)
  else if explanation_exists s slideId then (s, [], false)
  else if !imageOk then
    (record_explanation_error s slideId "failed to download slide image", [], true)
  else if !apiKeyOk then
    (record_explanation_error s slideId "User API key not found", [], true)
  else
    let sres :=
      match gen with
      | some r => (s, r, false)
      | none => (record_explanation_error s slideId "LLM call failed",
                 fallback_explanation_result, true)
    match save_explanation sres.1 slideId slideNumber sres.2.1 sres.2.2 with
    | none =>
      (record_explanation_error sres.1 slideId "AttributeError: one_liner", [], true)
    | some s2 =>
      let r := increment_progress_and_check_completion s2
      (r.1, if r.2 then [Job.summary] else [], false)

/-! ## Image-analysis stage (image_analysis/orchestrator.py) -/

/-- The structured result of the image-analysis capability. -/
structure AnalysisResult where
  imageType : String
  ocrText : String
  altText : String
deriving DecidableEq, Repr

/-- The image-analysis job payload (app/schemas/image_analysis.py
`ImageAnalysisPayload`): the pydantic model declares `slide_image_id`,
`lecture_id` and `image_hash` — and no `customer_identifier`, `name` or
`email` fields. -/
structure ImageAnalysisPayload where
  slideImageId : Nat
  imageHash : Nat
deriving DecidableEq, Repr

/-- Pydantic attribute access `payload.customer_identifier` on
`ImageAnalysisPayload`: the schema declares no such field, so the access
raises AttributeError — modelled as `none`. -/
def ImageAnalysisPayload.customer_identifier (_ : ImageAnalysisPayload) : Option String :=
  none

/-- `process_image_analysis_job` (image_analysis/orchestrator.py).  The
handler first destructures the payload — including
`payload.customer_identifier`, `payload.name` and `payload.email`, which
`ImageAnalysisPayload` does not declare, so the destructuring raises
AttributeError before the database connection and the guard; the raise sits
before the `try` block, so no error is recorded and nothing is mutated.
Were the destructuring to succeed, the body would run the guard, look up the
image's storage path (acknowledging and stopping when absent), call the
analysis capability (`gen`; `none` = the call raised, handled by the
`except` branch that replaces `search_error_details` and re-raises), then in
one transaction propagate the results to every row with the same hash and
atomically increment the processed counter, finally publishing the embedding
job exactly when the returned count equals the returned (positive) total. -/
def process_image_analysis_job (gen : Option AnalysisResult)
    (payload : ImageAnalysisPayload) (s : Store) : Store × List Job × Bool :=
  match payload.customer_identifier with
  | none => (s, [], true)
  | some _ =>
    if !(verify_lecture_exists s) then (s, [], false)
    else
      match s.slideImages.find? (fun im => im.id == payload.slideImageId) with
      | none => (s, [], false)
      | some _ =>
        match gen with
        | none =>
          (image_analysis_failure_update s payload.slideImageId "image analysis failed",
           [], true)
        | some r =>
          let s1 := update_image_analysis_results s payload.imageHash
            r.imageType r.ocrText r.altText
          let (s2, processedCount, totalCount) := increment_processed_images_count s1
          (s2,
           if totalCount > 0 && processedCount == totalCount then [Job.embedding] else [],
           false)

/-! ## Embedding stage (embedding/orchestrator.py) -/

/-- One element of the batch result of the embedding generation capability. -/
structure EmbedResult where
  vector : String
  metaGen : String
deriving DecidableEq, Repr

/-- `get_lecture_chunks` (embedding/db_utils.py): all chunk rows, ordered by
slide_number then chunk_index. -/
def get_lecture_chunks (s : Store) : List Chunk :=
  sortLe (fun a b =>
      a.slideNumber < b.slideNumber ||
        (a.slideNumber == b.slideNumber && a.chunkIndex ≤ b.chunkIndex))
    s.chunks

/-- The chunk-text enrichment loop of `process_embedding_job`: the chunk text
joined with the OCR and alt text of the content images on the same slide. -/
def enrich_chunk_text (s : Store) (c : Chunk) : String :=
  let imgs := s.slideImages.filter
    (fun im => im.slideId == c.slideId && im.imageType == some "content")
  let parts := [c.text] ++ imgs.flatMap (fun im =>
    (match im.ocrText with
     | some t => if t != "" then ["OCR Text: " ++ t] else []
     | none => []) ++
    (match im.altText with
     | some t => if t != "" then ["Alt Text: " ++ t] else []
     | none => []))
  (String.intercalate " " parts).trim

/-- One row of `batch_upsert_embeddings` (embedding/db_utils.py): INSERT ...
ON CONFLICT (chunk_id) DO UPDATE SET vector, metadata. -/
def batch_upsert_embedding_row (s : Store) (row : EmbeddingRow) : Store :=
  if s.embeddings.any (fun e => e.chunkId == row.chunkId) then
    { s with embeddings := s.embeddings.map (fun e =>
        if e.chunkId == row.chunkId then
          { e with vector := row.vector, metaGen := row.metaGen }
        else e) }
  else { s with embeddings := s.embeddings ++ [row] }

/-- `batch_upsert_embeddings` (embedding/db_utils.py). -/
def batch_upsert_embeddings (s : Store) (rows : List EmbeddingRow) : Store :=
  rows.foldl batch_upsert_embedding_row s

/-- `process_embedding_job` (embedding/orchestrator.py).  `apiKeyOk` models
the per-tenant key fetch and `gen` the batch embedding call (`none` = the
call raised).  Result: the store, the number of calls made to the generation
capability, and whether the handler re-raised.  Any raised error is first
routed through the `except` branch, which sets the status to 'failed' and
replaces `search_error_details`. -/
def process_embedding_job (gen : List String → Option (List EmbedResult))
    (apiKeyOk : Bool) (s : Store) : Store × Nat × Bool :=
  if !(verify_lecture_exists s) then (s, 0, false)
  else
    let chunks := get_lecture_chunks s
    if chunks.isEmpty then
      let (s1, currentStatus) := set_embeddings_complete s
      let s2 := if currentStatus == "summarising" then set_lecture_status_to_complete s1 else s1
      (s2, 0, false)
    else
      let enrichedTexts := chunks.map (enrich_chunk_text s)
      if !apiKeyOk then
        (embedding_failure_update s "Failed to access API key", 0, true)
      else
        match gen enrichedTexts with
        | none => (embedding_failure_update s "embedding generation failed", 1, true)
        | some results =>
          if results.length != chunks.length then
            (embedding_failure_update s "embedding result count mismatch", 1, true)
          else
            let rows := (chunks.zip results).map (fun cr =>
              EmbeddingRow.mk cr.1.id cr.2.vector cr.2.metaGen)
            let s1 := batch_upsert_embeddings s rows
            let (s2, currentStatus) := set_embeddings_complete s1
            let s3 :=
              if currentStatus == "summarising" then set_lecture_status_to_complete s2 else s2
            (s3, 1, false)

/-! ## Summary stage (summary/orchestrator.py) -/

/-- `process_summary_job` (summary/orchestrator.py): guard, skip when a
summary already exists, gather the explanation contents (return when there
are none), call the generation capability (`gen`; `none` = the call raised
and the router triggers a retry), then in one transaction save the summary,
set the status to 'summarising' and read `embeddings_complete`; after the
transaction, flip to 'complete' when the flag was already set. -/
def process_summary_job (gen : List String → Option (String × String))
    (s : Store) : Store × Bool :=
  if !(verify_lecture_exists s) then (s, false)
  else if check_summary_exists s then (s, false)
  else
    let explanations := get_all_explanations s
    if explanations.isEmpty then (s, false)
    else
      match gen explanations with
      | none => (s, true)
      | some (content, metaGen) =>
        let s1 := save_summary s content metaGen
        let s2 := { s1 with status := "summarising" }
        let embeddingsAreComplete := s2.embeddingsComplete
        (if embeddingsAreComplete then set_lecture_status_to_complete s2 else s2, false)

/-! ## Legacy per-chunk embed stage (embed/orchestrator.py, embed/db_utils.py)

This pgmq-based variant embeds one chunk per job.  Note that, unlike the
other orchestrators, `embed` performs no `verify_lecture_exists` check. -/

/-- `upsert_embedding` (embed/db_utils.py): INSERT ... ON CONFLICT (chunk_id)
DO UPDATE SET vector (the metadata column is not updated on conflict). -/
def upsert_embedding (s : Store) (chunkId : Nat) (vector metaGen : String) : Store :=
  if s.embeddings.any (fun e => e.chunkId == chunkId) then
    { s with embeddings := s.embeddings.map (fun e =>
        if e.chunkId == chunkId then { e with vector := vector } else e) }
  else { s with embeddings := s.embeddings ++ [⟨chunkId, vector, metaGen⟩] }

/-- `update_slide_progress` (embed/db_utils.py): atomically increment the
slide's `processed_chunks` and return the new `(processed, total)`; `none`
when the slide row is missing (the Python then raises). -/
def update_slide_progress (s : Store) (slideId : Nat) : Option (Store × Nat × Nat) :=
  match s.slides.find? (fun sl => sl.id == slideId) with
  | none => none
  | some sl =>
    let s1 := { s with slides := s.slides.map (fun sl2 =>
      if sl2.id == slideId then { sl2 with processedChunks := sl2.processedChunks + 1 }
      else sl2) }
    some (s1, sl.processedChunks + 1, sl.totalChunks)

/-- `_check_and_update_lecture_status` (embed/db_utils.py): when no slide has
`processed_chunks < total_chunks` left, set the status to 'explaining'
(unconditionally — even a terminal status is overwritten). -/
def check_and_update_lecture_status (s : Store) : Store :=
  if (s.slides.filter (fun sl => sl.processedChunks < sl.totalChunks)).length == 0 then
    { s with status := "explaining" }
  else s

/-- `enqueue_explanation_job_if_complete` (embed/db_utils.py): when
`processed == total`, send the explanation payload to pgmq and run the
lecture-status check. -/
def enqueue_explanation_job_if_complete (s : Store) (slideId slideNumber processed total : Nat) :
    Store × List Job :=
  if processed == total then
    (check_and_update_lecture_status s, [Job.explanationQueue slideId slideNumber])
  else (s, [])

/-- `embed` (embed/orchestrator.py): fetch the chunk text (raising when the
chunk is missing), call the embedding capability (`emb`), then in one
transaction upsert the vector, bump the slide progress and enqueue the
explanation job when the slide is complete.  There is no
`verify_lecture_exists` guard.  A missing slide row makes the transaction
roll back and the handler raise. -/
def embed (emb : String → String × String) (chunkId slideId slideNumber : Nat)
    (s : Store) : Store × List Job × Bool :=
  match s.chunks.find? (fun c => c.id == chunkId) with
  | none => (s, [], true)
  | some c =>
    let (vector, metaGen) := emb c.text
    match update_slide_progress (upsert_embedding s chunkId vector metaGen) slideId with
    | none => (s, [], true)
    | some (s2, processed, total) =>
      let (s3, jobs) := enqueue_explanation_job_if_complete s2 slideId slideNumber processed total
      (s3, jobs, false)

/-! ## Rendezvous interleaving machine (embedding vs. summary completion)

The last transaction of `process_embedding_job` and the steps of
`process_summary_job` are made into explicit atomic actions so that
interleavings of the two completion handlers can be enumerated.  Between two
consecutive atomic actions of the summary handler sit only read-only
operations (gathering explanation contents, the LLM call), so every
observable interleaving is an interleaving of these actions.
`completeWrites` counts the executions of the SQL statement
`UPDATE lectures SET status = 'complete'`. -/

/-- Joint state of the store and the two in-flight completion handlers.
`embedPc`: 0 = before the guard, 1 = before the final transaction, 2 = done.
`summaryPc`: 0 = before the guard, 1 = before the summary-exists check,
2 = before the explanations fetch, 3 = before the save transaction,
4 = before the conditional final update, 5 = done.  `summaryFlag` is the
handler-local `embeddings_are_complete` variable. -/
structure RendezvousState where
  store : Store
  embedPc : Nat
  summaryPc : Nat
  summaryFlag : Bool
  completeWrites : Nat
deriving DecidableEq, Repr

/-- One atomic action of the embedding completion handler
(process_embedding_job, embedding/orchestrator.py): the guard, then the
single transaction that upserts the vectors, sets `embeddings_complete`
(reading back the status) and, if the status is already 'summarising', flips
it to 'complete'. -/
def embedding_track_step (rows : List EmbeddingRow) (st : RendezvousState) : RendezvousState :=
  match st.embedPc with
  | 0 =>
    if verify_lecture_exists st.store then { st with embedPc := 1 }
    else { st with embedPc := 2 }
  | 1 =>
    let s1 := batch_upsert_embeddings st.store rows
    let (s2, currentStatus) := set_embeddings_complete s1
    if currentStatus == "summarising" then
      { st with store := set_lecture_status_to_complete s2, embedPc := 2,
                completeWrites := st.completeWrites + 1 }
    else { st with store := s2, embedPc := 2 }
  | _ => st

/-- One atomic action of the summary completion handler
(process_summary_job, summary/orchestrator.py): the guard, the
summary-exists check, the explanations fetch, the transaction that saves the
summary, unconditionally sets the status to 'summarising' and reads
`embeddings_complete`, and finally — outside that transaction — the
conditional flip to 'complete'. -/
def summary_track_step (content metaGen : String) (st : RendezvousState) : RendezvousState :=
  match st.summaryPc with
  | 0 =>
    if verify_lecture_exists st.store then { st with summaryPc := 1 }
    else { st with summaryPc := 5 }
  | 1 =>
    if check_summary_exists st.store then { st with summaryPc := 5 }
    else { st with summaryPc := 2 }
  | 2 =>
    if (get_all_explanations st.store).isEmpty then { st with summaryPc := 5 }
    else { st with summaryPc := 3 }
  | 3 =>
    let s1 := save_summary st.store content metaGen
    let s2 := { s1 with status := "summarising" }
    { st with store := s2, summaryFlag := s2.embeddingsComplete, summaryPc := 4 }
  | 4 =>
    if st.summaryFlag then
      { st with store := set_lecture_status_to_complete st.store, summaryPc := 5,
                completeWrites := st.completeWrites + 1 }
    else { st with summaryPc := 5 }
  | _ => st

/-- Run a schedule: `true` picks the next atomic action of the embedding
track, `false` the next atomic action of the summary track. -/
def rendezvous_run (rows : List EmbeddingRow) (content metaGen : String) :
    List Bool → RendezvousState → RendezvousState
  | [], st => st
  | b :: bs, st =>
    rendezvous_run rows content metaGen bs
      (if b then embedding_track_step rows st else summary_track_step content metaGen st)

/-! ## Concrete stores used by the theorems -/

/-- A freshly created lecture row with no dependent records. -/
def fresh_store : Store :=
  { status := "new"
    embeddingsComplete := false
    totalSlides := 0
    processedSlides := 0
    totalSubImages := 0
    processedSubImages := 0
    explanationErrorDetails := []
    searchErrorDetails := []
    slides := []
    chunks := []
    slideImages := []
    explanations := []
    summaries := none
    embeddings := []
    nextSlideId := 0
    nextChunkId := 0
    nextImageId := 0 }

/-- The store at the moment both completion handlers are pending: the
explanation track has explained the single slide and set the status to
'summarising' (inside `increment_progress_and_check_completion`) before
publishing the summary job; the embedding job is still in flight. -/
def rendezvous_store : Store :=
  { fresh_store with
      status := "summarising"
      totalSlides := 1
      processedSlides := 1
      slides := [⟨0, 1, "slide text", 0, 0⟩]
      chunks := [⟨0, 0, 1, 0, "chunk text", 2⟩]
      explanations := [⟨0, 1, "an explanation", none, "concept", false⟩]
      nextSlideId := 1
      nextChunkId := 1 }

/-! ## C1 — rendezvous: exactly one 'complete' transition -/

/-- C1: the mutual double-check does give exactly one 'complete' write in the
two sequential orderings (embedding handler runs entirely first, or summary
handler runs entirely first), but the code violates the claim under a finer
interleaving: starting from status 'summarising' (the status the explanation
track leaves behind when it publishes the summary job), if the embedding
handler runs completely inside the window between the summary handler's
guard / exists-check / fetch and its save transaction, the embedding handler
writes 'complete', the summary transaction then overwrites the status back to
'summarising' and reads `embeddings_complete = true`, and the summary handler
writes 'complete' a second time — the status is set to 'complete' twice. -/
theorem rendezvous_double_complete_interleaving :
    (rendezvous_run [⟨0, "[0.1,0.2]", "meta"⟩] "summary text" "meta"
        [true, true, false, false, false, false, false]
        ⟨rendezvous_store, 0, 0, false, 0⟩).completeWrites = 1 ∧
    (rendezvous_run [⟨0, "[0.1,0.2]", "meta"⟩] "summary text" "meta"
        [false, false, false, false, false, true, true]
        ⟨rendezvous_store, 0, 0, false, 0⟩).completeWrites = 1 ∧
    (rendezvous_run [⟨0, "[0.1,0.2]", "meta"⟩] "summary text" "meta"
        [false, false, false, true, true, false, false]
        ⟨rendezvous_store, 0, 0, false, 0⟩).completeWrites = 2 := by
  decide

/-! ## C5 — image classification policy -/

/-- C5 (counterexample): the claim says an OCR text of length ≥ 30 always
yields 'content', but in `_classify_image` the keyword tests on the caption
run first: a caption containing the decorative keyword 'logo' forces
'decorative' even though the OCR text has 31 characters. -/
theorem classify_image_keyword_beats_ocr_threshold :
    30 ≤ pyLen "0123456789012345678901234567890" ∧
    classify_image "logo" "0123456789012345678901234567890" = "decorative" := by
  decide

/-- The classification policy as the amended claim states it: keyword matches
on the lowercased caption take priority (content keywords, then decorative
keywords); only then do the documented length thresholds apply. -/
def classify_image_policy (caption ocr : String) : String :=
  if content_keywords.any (fun kw => pyInStr kw (pyLower caption)) then "content"
  else if decorative_keywords.any (fun kw => pyInStr kw (pyLower caption)) then "decorative"
  else if 30 ≤ pyLen ocr then "content"
  else if 4 ≤ (pySplitWhitespace caption).length ∧ 30 ≤ pyLen caption then "content"
  else "decorative"

/-- C5 (amended): `_classify_image` is a pure function of the caption and the
OCR text equal to the keyword-first policy: caption keyword matches decide
first; otherwise OCR length ≥ 30 gives 'content'; otherwise a caption of
≥ 4 words and ≥ 30 characters gives 'content'; otherwise 'decorative'. -/
theorem classify_image_eq_policy (altText ocrText : String) :
    classify_image altText ocrText = classify_image_policy altText ocrText := by
  have hocr : (ocrText != "" && (pyLen ocrText ≥ 30 : Bool)) = decide (30 ≤ pyLen ocrText) := by
    by_cases h30 : 30 ≤ pyLen ocrText
    · have hne : (ocrText != "") = true := by
        rcases eq_or_ne ocrText "" with he | he
        · subst he
          simp [pyLen] at h30
        · simp [he]
      simp [hne, h30]
    · simp [h30]
  have halt : (altText != "" && ((pySplitWhitespace altText).length ≥ 4 : Bool)
        && (pyLen altText ≥ 30 : Bool))
      = decide (4 ≤ (pySplitWhitespace altText).length ∧ 30 ≤ pyLen altText) := by
    by_cases h30 : 30 ≤ pyLen altText
    · have hne : (altText != "") = true := by
        rcases eq_or_ne altText "" with he | he
        · subst he
          simp [pyLen] at h30
        · simp [he]
      by_cases h4 : 4 ≤ (pySplitWhitespace altText).length
      · simp [hne, h30, h4]
      · simp [h4]
    · simp [h30]
  unfold classify_image classify_image_policy
  rw [hocr, halt]
  rcases hic : content_keywords.any (fun kw => pyInStr kw (pyLower altText)) with - | -
  · rcases hid : decorative_keywords.any (fun kw => pyInStr kw (pyLower altText)) with - | -
    · by_cases h30 : 30 ≤ pyLen ocrText
      · simp [hic, hid, h30]
      · by_cases h4 : 4 ≤ (pySplitWhitespace altText).length ∧ 30 ≤ pyLen altText
        · simp [hic, hid, h30, h4]
        · simp [hic, hid, h30, h4]
    · simp [hic, hid]
  · simp [hic]

/-! ## C7 — redelivery never overwrites persisted results -/

/-- A store in which the summary for the lecture has already been produced. -/
def summary_present_store : Store :=
  { fresh_store with
      status := "explaining"
      totalSlides := 1
      processedSlides := 1
      slides := [⟨0, 1, "slide text", 0, 0⟩]
      explanations := [⟨0, 1, "an explanation", none, "concept", false⟩]
      summaries := some ⟨"first summary", "meta one"⟩
      nextSlideId := 1 }

/-- C7 (counterexample): the claim says the persist operation for summaries
is insert-if-absent, but `save_summary` is an ON CONFLICT DO UPDATE upsert:
applied to a store that already holds a summary, it replaces the stored
content with the new generated result. -/
theorem save_summary_overwrites_existing :
    summary_present_store.summaries = some ⟨"first summary", "meta one"⟩ ∧
    (save_summary summary_present_store "second summary" "meta two").summaries
      = some ⟨"second summary", "meta two"⟩ := by
  decide

/-- C7 (amended): the explanations INSERT really is insert-if-absent (ON
CONFLICT DO NOTHING), and a full redelivery of either producing job is a
no-op once
the result exists: the explanation handler returns at its `explanation_exists`
guard and the summary handler returns at its `check_summary_exists` guard, so
neither stored record is overwritten.  (`save_summary` itself is an
overwriting upsert; only the handler-level guard protects the summary.) -/
theorem persisted_results_survive_redelivery (s : Store)
    (egen : Option ExplanationResult) (imageOk apiKeyOk : Bool)
    (slideId slideNumber : Nat) (content : String) (oneLiner : Option String)
    (slideType : String) (metaFallback : Bool)
    (sgen : List String → Option (String × String))
    (hex : explanation_exists s slideId = true)
    (hsum : check_summary_exists s = true) :
    explanations_insert s slideId slideNumber content oneLiner slideType metaFallback = s ∧
    process_explanation_job egen imageOk apiKeyOk slideId slideNumber s = (s, [], false) ∧
    process_summary_job sgen s = (s, false) := by
  refine ⟨?_, ?_, ?_⟩
  · unfold explanation_exists at hex
    unfold explanations_insert
    simp [hex]
  · cases hv : verify_lecture_exists s <;>
      simp [process_explanation_job, hv, hex]
  · cases hv : verify_lecture_exists s <;>
      simp [process_summary_job, hv, hsum]

/-- C7 (witness): the amended theorem applied to the concrete store that
already holds the slide-0 explanation and the lecture summary. -/
theorem persisted_results_survive_redelivery_witness :
    explanation_exists summary_present_store 0 = true ∧
    check_summary_exists summary_present_store = true ∧
    explanations_insert summary_present_store 0 1 "other content" none "other" true
      = summary_present_store ∧
    process_summary_job (fun _ => some ("second summary", "meta two")) summary_present_store
      = (summary_present_store, false) :=
  ⟨by decide, by decide,
   (persisted_results_survive_redelivery summary_present_store none true true 0 1
      "other content" none "other" true (fun _ => some ("second summary", "meta two"))
      (by decide) (by decide)).1,
   (persisted_results_survive_redelivery summary_present_store none true true 0 1
      "other content" none "other" true (fun _ => some ("second summary", "meta two"))
      (by decide) (by decide)).2.2⟩

/-! ## C8 — error recording -/

/-- A store holding one prior search-track error entry (as the image-analysis
failure path records them) and one chunk, so the embedding handler takes its
main path. -/
def prior_error_store : Store :=
  { fresh_store with
      status := "explaining"
      totalSlides := 1
      slides := [⟨0, 1, "slide text", 0, 0⟩]
      chunks := [⟨0, 0, 1, 0, "chunk text", 2⟩]
      searchErrorDetails := [⟨"image_analysis", some 3, "earlier analysis error"⟩]
      nextSlideId := 1
      nextChunkId := 1 }

/-- C8 (counterexample): the claim says no stage's error recording
destructively overwrites prior entries, but the embedding handler's `except`
branch replaces `search_error_details` with the single new error object: the
previously recorded image-analysis entry is gone afterwards. -/
theorem embedding_error_write_discards_prior_entries :
    (⟨"image_analysis", some 3, "earlier analysis error"⟩ : ErrEntry)
        ∈ prior_error_store.searchErrorDetails ∧
    (⟨"image_analysis", some 3, "earlier analysis error"⟩ : ErrEntry)
        ∉ (process_embedding_job (fun _ => none) true prior_error_store).1.searchErrorDetails := by
  decide

/-- C8 (amended): the explanation stage's recorder appends the new structured
entry to the explanation slot, preserving every prior entry there and leaving
the search slot untouched; the embedding stage's failure handler instead
replaces the search slot with the single new entry (prior entries in that
slot are lost), leaving the explanation slot untouched. -/
theorem error_recording_per_stage_shapes (s : Store) (slideId : Nat) (m1 m2 : String) :
    (record_explanation_error s slideId m1).explanationErrorDetails
        = s.explanationErrorDetails ++ [⟨"explanation", some slideId, m1⟩] ∧
    (record_explanation_error s slideId m1).searchErrorDetails = s.searchErrorDetails ∧
    (embedding_failure_update s m2).searchErrorDetails = [⟨"embedding", none, m2⟩] ∧
    (embedding_failure_update s m2).explanationErrorDetails = s.explanationErrorDetails :=
  ⟨rfl, rfl, rfl, rfl⟩

/-! ## C10 — embedding job on a lecture with zero chunks -/

/-- C10: when the lecture has no chunks, the embedding handler makes no call
to the generation capability, sets `embeddings_complete`, and flips the
status to 'complete' exactly when the status was already 'summarising';
nothing else in the store changes and the handler does not raise. -/
theorem embedding_job_zero_chunks (gen : List String → Option (List EmbedResult))
    (apiKeyOk : Bool) (s : Store)
    (hactive : verify_lecture_exists s = true) (hchunks : s.chunks = []) :
    process_embedding_job gen apiKeyOk s =
      ({ s with embeddingsComplete := true,
                status := if s.status == "summarising" then "complete" else s.status },
       0, false) := by
  have h1 : get_lecture_chunks s = [] := by
    unfold get_lecture_chunks
    rw [hchunks]
    rfl
  unfold process_embedding_job
  rw [hactive, h1]
  cases hst : s.status == "summarising" <;>
    simp [hst, set_embeddings_complete, set_lecture_status_to_complete]

/-- A lecture whose explanation track has already finished (status
'summarising') but which has no chunks at all. -/
def empty_lecture_store : Store :=
  { fresh_store with status := "summarising" }

/-- C10 (witness): the zero-chunks theorem applied to the concrete empty
lecture in status 'summarising' — the handler completes the lecture without
any generation call. -/
theorem embedding_job_zero_chunks_witness :
    verify_lecture_exists empty_lecture_store = true ∧
    empty_lecture_store.chunks = [] ∧
    process_embedding_job (fun _ => none) true empty_lecture_store =
      ({ empty_lecture_store with
          embeddingsComplete := true,
          status := if empty_lecture_store.status == "summarising" then "complete"
                    else empty_lecture_store.status },
       0, false) :=
  ⟨by decide, rfl,
   embedding_job_zero_chunks (fun _ => none) true empty_lecture_store (by decide) rfl⟩

/-! ## C4 — defensive subscriber -/

/-- A lecture already in the terminal state 'complete', with one slide and
one chunk for the legacy embed handler to chew on. -/
def terminal_lecture_store : Store :=
  { fresh_store with
      status := "complete"
      totalSlides := 1
      slides := [⟨0, 1, "slide text", 0, 1⟩]
      chunks := [⟨5, 0, 1, 0, "chunk text", 2⟩]
      nextSlideId := 1
      nextChunkId := 6 }

/-- C4 (counterexample): the claim says every orchestrator checks the
lecture's non-terminal status before doing any work, but the legacy per-chunk
`embed` orchestrator has no such guard: delivered for a lecture already in
'complete', it mutates the store (upserts the embedding, bumps the slide
progress), publishes an explanation job, and even overwrites the terminal
status with 'explaining'. -/
theorem embed_handler_ignores_terminal_status :
    terminal_lecture_store.status = "complete" ∧
    (embed (fun _ => ("[0.3]", "meta")) 5 0 1 terminal_lecture_store).1
        ≠ terminal_lecture_store ∧
    (embed (fun _ => ("[0.3]", "meta")) 5 0 1 terminal_lecture_store).1.status
        = "explaining" ∧
    (embed (fun _ => ("[0.3]", "meta")) 5 0 1 terminal_lecture_store).2.1 ≠ [] := by
  decide

/-- C4 (amended): the ingestion, explanation, embedding and summary
orchestrators check `verify_lecture_exists` before doing any work and exit
silently — store unchanged, no job published, no exception — when the
status is 'failed' or 'complete'.  The image-analysis orchestrator never
reaches its guard: it destructures payload fields its schema does not
declare, so every delivery (terminal lecture or not) raises before any work
— store unchanged and no job, but an exception, so the job is redelivered
rather than acknowledged.  Only the legacy per-chunk embed orchestrator
mutates a terminal lecture. -/
theorem guarded_orchestrators_noop_on_terminal (s : Store)
    (h : s.status = "failed" ∨ s.status = "complete")
    (chunker : String → List (String × Nat)) (doc : List Page)
    (egen : Option ExplanationResult) (imageOk apiKeyOk : Bool) (slideId slideNumber : Nat)
    (agen : Option AnalysisResult) (p : ImageAnalysisPayload)
    (bgen : List String → Option (List EmbedResult)) (bApiKeyOk : Bool)
    (sgen : List String → Option (String × String)) :
    ingest chunker doc s = (s, []) ∧
    process_explanation_job egen imageOk apiKeyOk slideId slideNumber s = (s, [], false) ∧
    process_image_analysis_job agen p s = (s, [], true) ∧
    process_embedding_job bgen bApiKeyOk s = (s, 0, false) ∧
    process_summary_job sgen s = (s, false) := by
  have hv : verify_lecture_exists s = false := by
    unfold verify_lecture_exists
    rcases h with h | h <;> simp [h]
  refine ⟨?_, ?_, rfl, ?_, ?_⟩ <;>
    simp [ingest, process_explanation_job, process_embedding_job, process_summary_job, hv]

/-- C4 (witness): the amended theorem applied to the concrete 'complete'
lecture: the ingest and summary handlers leave it untouched and publish
nothing, and the image-analysis handler raises without touching it. -/
theorem guarded_orchestrators_noop_on_terminal_witness :
    (terminal_lecture_store.status = "failed" ∨ terminal_lecture_store.status = "complete") ∧
    ingest (fun t => [(t, 1)]) [⟨"page text", true, 3, [7]⟩] terminal_lecture_store
      = (terminal_lecture_store, []) ∧
    process_image_analysis_job none ⟨0, 7⟩ terminal_lecture_store
      = (terminal_lecture_store, [], true) ∧
    process_summary_job (fun _ => none) terminal_lecture_store
      = (terminal_lecture_store, false) :=
  ⟨Or.inr rfl,
   (guarded_orchestrators_noop_on_terminal terminal_lecture_store (Or.inr rfl)
      (fun t => [(t, 1)]) [⟨"page text", true, 3, [7]⟩] none true true 0 1 none ⟨0, 7⟩
      (fun _ => none) true (fun _ => none)).1,
   (guarded_orchestrators_noop_on_terminal terminal_lecture_store (Or.inr rfl)
      (fun t => [(t, 1)]) [⟨"page text", true, 3, [7]⟩] none true true 0 1 none ⟨0, 7⟩
      (fun _ => none) true (fun _ => none)).2.2.1,
   (guarded_orchestrators_noop_on_terminal terminal_lecture_store (Or.inr rfl)
      (fun t => [(t, 1)]) [⟨"page text", true, 3, [7]⟩] none true true 0 1 none ⟨0, 7⟩
      (fun _ => none) true (fun _ => none)).2.2.2.2⟩

/-! ## C2 — increment-then-check fan-out -/

/-- N serialized executions of the explanation track's
`increment_progress_and_check_completion` transaction (the row lock taken by
its UPDATE serializes concurrent callers), collecting each caller's
completion decision. -/
def explanation_completion_decisions : Nat → Store → List Bool
  | 0, _ => []
  | n + 1, s =>
    let r := increment_progress_and_check_completion s
    r.2 :: explanation_completion_decisions n r.1

/-- N serialized executions of the image-analysis track's atomic increment,
collecting each caller's publish decision `total_count > 0 and
processed_count == total_count` exactly as `process_image_analysis_job`
computes it from the values the UPDATE returned. -/
def image_completion_decisions : Nat → Store → List Bool
  | 0, _ => []
  | n + 1, s =>
    let r := increment_processed_images_count s
    (r.2.2 > 0 && r.2.1 == r.2.2) :: image_completion_decisions n r.1

/-- A lecture whose slide counter is already saturated (one slide, already
processed once). -/
def over_complete_store : Store :=
  { fresh_store with
      status := "explaining"
      totalSlides := 1
      processedSlides := 1
      slides := [⟨0, 1, "slide text", 0, 0⟩]
      nextSlideId := 1 }

/-- C2 (counterexample): the claim says the completing handler publishes
exactly when it observes `processed == total` from the value returned by the
atomic increment; but `increment_progress_and_check_completion` has no
RETURNING clause — it re-reads the counter in a separate SELECT and compares
with `>=`.  On a store whose counter already equals the total, it reports
completion (and publishes) although the incremented value does not equal the
total. -/
theorem explanation_completion_not_increment_return :
    (increment_progress_and_check_completion over_complete_store).2 = true ∧
    over_complete_store.processedSlides + 1 ≠ over_complete_store.totalSlides := by
  decide

/-- Step equation for `explanation_completion_decisions`. -/
theorem explanation_completion_decisions_succ (n : Nat) (s : Store) :
    explanation_completion_decisions (n + 1) s
      = (increment_progress_and_check_completion s).2
          :: explanation_completion_decisions n (increment_progress_and_check_completion s).1 :=
  rfl

/-- Below the threshold, the explanation increment only bumps the counter and
reports no completion. -/
theorem increment_progress_below (s : Store) (h : s.processedSlides + 1 < s.totalSlides) :
    increment_progress_and_check_completion s
      = ({ s with processedSlides := s.processedSlides + 1 }, false) := by
  unfold increment_progress_and_check_completion
  have hlt : ¬ (s.processedSlides + 1 ≥ s.totalSlides) := by omega
  simp [hlt]

/-- Under serialized execution, the decisions of `m` explanation completions
that exactly exhaust the remaining counter are `false` for all but the last
caller. -/
theorem explanation_completion_decisions_shape (m : Nat) :
    ∀ s : Store, 0 < m → s.processedSlides + m = s.totalSlides →
      explanation_completion_decisions m s = List.replicate (m - 1) false ++ [true] := by
  induction m with
  | zero => intro s hm _; omega
  | succ k ih =>
    intro s _ hs
    cases k with
    | zero =>
      have hge : s.processedSlides + 1 ≥ s.totalSlides := by omega
      simp [explanation_completion_decisions, increment_progress_and_check_completion, hge]
    | succ j =>
      have h1 : s.processedSlides + 1 < s.totalSlides := by omega
      rw [explanation_completion_decisions_succ, increment_progress_below s h1]
      have hrec := ih { s with processedSlides := s.processedSlides + 1 }
        (Nat.succ_pos j) (by simp; omega)
      simp only [hrec]
      simp [List.replicate_succ]

/-- Step equation for `image_completion_decisions`. -/
theorem image_completion_decisions_succ (n : Nat) (s : Store) :
    image_completion_decisions (n + 1) s
      = ((increment_processed_images_count s).2.2 > 0 &&
          (increment_processed_images_count s).2.1 == (increment_processed_images_count s).2.2)
          :: image_completion_decisions n (increment_processed_images_count s).1 :=
  rfl

/-- Under serialized execution, the decisions of `m` image-analysis
completions that exactly exhaust the remaining counter are `false` for all
but the last caller. -/
theorem image_completion_decisions_shape (m : Nat) :
    ∀ s : Store, 0 < m → s.processedSubImages + m = s.totalSubImages →
      image_completion_decisions m s = List.replicate (m - 1) false ++ [true] := by
  induction m with
  | zero => intro s hm _; omega
  | succ k ih =>
    intro s _ hs
    cases k with
    | zero =>
      have h0 : 0 < s.totalSubImages := by omega
      have he : s.processedSubImages + 1 = s.totalSubImages := by omega
      simp [image_completion_decisions, increment_processed_images_count, h0, he]
    | succ j =>
      have hne : ¬ (s.processedSubImages + 1 = s.totalSubImages) := by omega
      rw [image_completion_decisions_succ]
      have hfalse : (((increment_processed_images_count s).2.2 > 0 : Bool) &&
          ((increment_processed_images_count s).2.1 == (increment_processed_images_count s).2.2))
          = false := by
        simp [increment_processed_images_count, hne]
      rw [hfalse]
      have hrec := ih { s with processedSubImages := s.processedSubImages + 1 }
        (Nat.succ_pos j) (by simp; omega)
      have hfst : (increment_processed_images_count s).1
          = { s with processedSubImages := s.processedSubImages + 1 } := rfl
      rw [hfst, hrec]
      simp [List.replicate_succ]

/-- C2 (amended): for N work items completing in parallel, exactly one
completing handler reports the fan-out decision on each track.  The
image-analysis track decides from the pair returned by its atomic
`UPDATE ... RETURNING`; the explanation track increments without RETURNING
and re-reads the counter in a separate SELECT inside the same transaction,
deciding with `>=` — safe only because the row lock serializes the
increment-and-read transactions. -/
theorem completion_fanout_exactly_once (n : Nat) (hn : 0 < n) (s t : Store)
    (hs0 : s.processedSlides = 0) (hsN : s.totalSlides = n)
    (ht0 : t.processedSubImages = 0) (htN : t.totalSubImages = n) :
    (explanation_completion_decisions n s).count true = 1 ∧
    (image_completion_decisions n t).count true = 1 := by
  rw [explanation_completion_decisions_shape n s hn (by omega),
      image_completion_decisions_shape n t hn (by omega)]
  constructor <;> simp [List.count_append, List.count_replicate]

/-- A lecture with 50 slides awaiting explanation completions. -/
def fanout_slide_store : Store :=
  { fresh_store with status := "explaining", totalSlides := 50 }

/-- A lecture with 50 unique sub-images awaiting analysis completions. -/
def fanout_image_store : Store :=
  { fresh_store with status := "processing", totalSubImages := 50 }

/-- C2 (witness): with N = 50 concurrent completions on each track, each
track fans out exactly once. -/
theorem completion_fanout_exactly_once_witness :
    0 < 50 ∧
    (explanation_completion_decisions 50 fanout_slide_store).count true = 1 ∧
    (image_completion_decisions 50 fanout_image_store).count true = 1 :=
  ⟨by decide,
   (completion_fanout_exactly_once 50 (by decide) fanout_slide_store fanout_image_store
      rfl rfl rfl rfl).1,
   (completion_fanout_exactly_once 50 (by decide) fanout_slide_store fanout_image_store
      rfl rfl rfl rfl).2⟩

/-! ## C6 — fallback never drops a work item -/

/-- One delivered explanation job together with the outcomes of its external
collaborators (the LLM call, the S3 download, the key fetch). -/
structure ExplanationDelivery where
  slideId : Nat
  slideNumber : Nat
  gen : Option ExplanationResult
  imageOk : Bool
  apiKeyOk : Bool
deriving DecidableEq, Repr

/-- Deliver a list of explanation jobs in order, collecting every job the
handlers publish. -/
def run_explanation_jobs : List ExplanationDelivery → Store → Store × List Job
  | [], s => (s, [])
  | d :: ds, s =>
    let r := process_explanation_job d.gen d.imageOk d.apiKeyOk d.slideId d.slideNumber s
    let rest := run_explanation_jobs ds r.1
    (rest.1, r.2.1 ++ rest.2)

/-- A ten-slide lecture in the explaining stage with no explanations yet. -/
def ten_slide_store : Store :=
  { fresh_store with
      status := "explaining"
      totalSlides := 10
      slides := (List.range 10).map (fun j => ⟨j, j + 1, "slide text", 0, 0⟩)
      nextSlideId := 10 }

/-- A successful generation result used by the non-failing deliveries
(slide_purpose from the schema's SlidePurpose enum, plus the explanation;
the schema declares nothing else). -/
def sample_explanation_result : ExplanationResult :=
  ⟨"content", "a generated explanation"⟩

/-- The ten explanation jobs of `ten_slide_store`, with the generation
capability forced to fail for slide `k` only. -/
def ten_deliveries_one_failure (k : Nat) : List ExplanationDelivery :=
  (List.range 10).map (fun i =>
    ⟨i, i + 1, if i = k then none else some sample_explanation_result, true, true⟩)

/-- C6 (code bug): the claim — a generation failure persists a flagged
fallback explanation, records the error and still increments
processed_slides, so a ten-slide lecture with one forced failure reaches
processed_slides = 10 and triggers the summary — is the documented intent
(llm_utils builds `ExplanationResult` with a `one_liner=` argument and the
SQL inserts a one_liner column), but `save_explanation` evaluates
`result.one_liner`, a field the `ExplanationResult` schema does not declare.
Every save — fallback and successful generation alike — raises
AttributeError; the handler records the error and re-raises.  Delivering the
ten jobs with slide 3 forced to fail persists no explanation at all, leaves
processed_slides at 0, and never publishes the summary job: the lecture
stalls instead of completing degraded. -/
theorem explanation_save_crash_stalls_lecture :
    save_explanation ten_slide_store 3 4 fallback_explanation_result true = none ∧
    save_explanation ten_slide_store 0 1 sample_explanation_result false = none ∧
    (run_explanation_jobs (ten_deliveries_one_failure 3) ten_slide_store).1.processedSlides
        = 0 ∧
    (run_explanation_jobs (ten_deliveries_one_failure 3) ten_slide_store).1.explanations
        = [] ∧
    (run_explanation_jobs (ten_deliveries_one_failure 3) ten_slide_store).2.count Job.summary
        = 0 ∧
    (run_explanation_jobs (ten_deliveries_one_failure 3) ten_slide_store).1.explanationErrorDetails
        ≠ [] := by
  decide

/-! ## C3 — ingest replay idempotency -/

/-- A one-page document: some text, a successful render (hash 11), and one
embedded image (hash 7). -/
def one_page_doc : List Page :=
  [⟨"slide one text", true, 11, [7]⟩]

/-- A trivial external chunker: the whole page text as one chunk. -/
def simple_chunker : String → List (String × Nat) :=
  fun t => [(t, 1)]

/-- C3 (code bug): replaying the same ingest job deduplicates slides and
chunks through the `get_or_create_*` upserts, but `insert_slide_image` is a
plain INSERT with no ON CONFLICT clause: the second run inserts a second
`full_slide_render` row and a second placement row for the same image, so
one replay doubles the `slide_images` set (4 rows instead of the 2 the claim
requires). -/
theorem ingest_replay_duplicates_slide_images :
    (ingest simple_chunker one_page_doc fresh_store).1.slides.length = 1 ∧
    (ingest simple_chunker one_page_doc fresh_store).1.chunks.length = 1 ∧
    (ingest simple_chunker one_page_doc fresh_store).1.slideImages.length = 2 ∧
    (ingest simple_chunker one_page_doc
        (ingest simple_chunker one_page_doc fresh_store).1).1.slides.length = 1 ∧
    (ingest simple_chunker one_page_doc
        (ingest simple_chunker one_page_doc fresh_store).1).1.chunks.length = 1 ∧
    (ingest simple_chunker one_page_doc
        (ingest simple_chunker one_page_doc fresh_store).1).1.slideImages.length = 4 ∧
    ((ingest simple_chunker one_page_doc
        (ingest simple_chunker one_page_doc fresh_store).1).1.slideImages.filter
          (fun im => im.imageType == some "full_slide_render")).length = 2 := by
  decide

/-! ## C9 — a swallowed render failure stalls the lecture

Helper lemmas about the ingest loop and the explanation deliveries. -/

/-- Inserting into a list is a permutation of consing. -/
theorem insertLe_perm {α : Type} (le : α → α → Bool) (a : α) (l : List α) :
    List.Perm (insertLe le a l) (a :: l) := by
  induction l with
  | nil => simp [insertLe]
  | cons b bs ih =>
    simp only [insertLe]
    split
    · exact List.Perm.refl _
    · exact ((ih.cons b).trans (List.Perm.swap a b bs))

/-- Insertion sort permutes its input. -/
theorem sortLe_perm {α : Type} (le : α → α → Bool) (l : List α) :
    List.Perm (sortLe le l) l := by
  induction l with
  | nil => exact List.Perm.refl _
  | cons a as ih => exact (insertLe_perm le a (sortLe le as)).trans (ih.cons a)

/-- Membership is invariant under the ORDER BY model. -/
theorem mem_sortLe {α : Type} {le : α → α → Bool} {a : α} {l : List α} :
    a ∈ sortLe le l ↔ a ∈ l :=
  (sortLe_perm le l).mem_iff

/-- The slide ids carried by the explanation jobs in a published batch. -/
def explanation_job_slide_ids (jobs : List Job) : List Nat :=
  jobs.filterMap (fun j =>
    match j with
    | Job.explanation slideId _ _ _ => some slideId
    | _ => none)

/-- The page used to give `List.getD` a default. -/
def default_page : Page :=
  ⟨"", false, 0, []⟩

/-- Fields of the lectures row the ingest page loop never writes. -/
def preserves_lecture_fields (s r : Store) : Prop :=
  r.status = s.status ∧ r.totalSlides = s.totalSlides ∧
  r.processedSlides = s.processedSlides ∧ r.explanations = s.explanations

/-- Fields the chunk / image sub-steps of one page leave untouched. -/
def preserves_slide_context (s r : Store) : Prop :=
  preserves_lecture_fields s r ∧ r.slides = s.slides ∧ r.nextSlideId = s.nextSlideId

theorem preserves_lecture_fields_trans {s r t : Store}
    (h1 : preserves_lecture_fields s r) (h2 : preserves_lecture_fields r t) :
    preserves_lecture_fields s t :=
  ⟨h2.1.trans h1.1, h2.2.1.trans h1.2.1, h2.2.2.1.trans h1.2.2.1, h2.2.2.2.trans h1.2.2.2⟩

theorem preserves_slide_context_trans {s r t : Store}
    (h1 : preserves_slide_context s r) (h2 : preserves_slide_context r t) :
    preserves_slide_context s t :=
  ⟨preserves_lecture_fields_trans h1.1 h2.1, h2.2.1.trans h1.2.1, h2.2.2.trans h1.2.2⟩

/-- `get_or_create_chunk` only touches the chunks table. -/
theorem get_or_create_chunk_effect (s : Store) (slideId slideNumber chunkIndex : Nat)
    (text : String) (tokenCount : Nat) :
    preserves_slide_context s
        (get_or_create_chunk s slideId slideNumber chunkIndex text tokenCount).1 ∧
    (get_or_create_chunk s slideId slideNumber chunkIndex text tokenCount).1.slideImages
        = s.slideImages := by
  unfold get_or_create_chunk
  cases hf : s.chunks.find? (fun ch => ch.slideId == slideId && ch.chunkIndex == chunkIndex) with
  | none => exact ⟨⟨⟨rfl, rfl, rfl, rfl⟩, rfl, rfl⟩, rfl⟩
  | some _ => exact ⟨⟨⟨rfl, rfl, rfl, rfl⟩, rfl, rfl⟩, rfl⟩

/-- The chunk-insertion loop only touches the chunks table. -/
theorem insert_chunks_loop_effect (slideId slideNumber : Nat) (cs : List (String × Nat)) :
    ∀ (idx : Nat) (s : Store),
      preserves_slide_context s (insert_chunks_loop slideId slideNumber idx cs s) ∧
      (insert_chunks_loop slideId slideNumber idx cs s).slideImages = s.slideImages := by
  induction cs with
  | nil =>
    intro idx s
    exact ⟨⟨⟨rfl, rfl, rfl, rfl⟩, rfl, rfl⟩, rfl⟩
  | cons c rest ih =>
    intro idx s
    have h1 := get_or_create_chunk_effect s slideId slideNumber idx c.1 c.2
    have h2 := ih (idx + 1) (get_or_create_chunk s slideId slideNumber idx c.1 c.2).1
    exact ⟨preserves_slide_context_trans h1.1 h2.1, h2.2.trans h1.2⟩

/-- `render_and_upload_slide_image` only adds (at most) the
`full_slide_render` row of its slide, and only when rendering succeeded. -/
theorem render_and_upload_slide_image_effect (page : Page) (slideNumber slideId : Nat)
    (s : Store) :
    preserves_slide_context s (render_and_upload_slide_image page slideNumber slideId s) ∧
    (∀ im ∈ (render_and_upload_slide_image page slideNumber slideId s).slideImages,
        im ∈ s.slideImages ∨
          (im.imageType = some "full_slide_render" ∧ im.slideId = slideId ∧
            page.renderOk = true)) := by
  unfold render_and_upload_slide_image insert_slide_image
  cases hr : page.renderOk with
  | false =>
    refine ⟨?_, fun im him => Or.inl him⟩
    simp [preserves_slide_context, preserves_lecture_fields]
  | true =>
    simp only [if_true]
    refine ⟨⟨⟨rfl, rfl, rfl, rfl⟩, rfl, rfl⟩, ?_⟩
    intro im him
    simp only [List.mem_append, List.mem_singleton] at him
    rcases him with h1 | h1
    · exact Or.inl h1
    · right
      rw [h1]
      simp

/-- The sub-image loop only adds untyped placement rows (their
classification comes later, from the analysis stage). -/
theorem process_sub_images_loop_effect (slideId : Nat) (hs : List Nat) :
    ∀ (s : Store) (m : List (Nat × String)) (seeds : List AnalysisJobSeed),
      preserves_slide_context s (process_sub_images_loop slideId hs s m seeds).1 ∧
      (∀ im ∈ (process_sub_images_loop slideId hs s m seeds).1.slideImages,
          im ∈ s.slideImages ∨ im.imageType = none) := by
  induction hs with
  | nil =>
    intro s m seeds
    exact ⟨⟨⟨rfl, rfl, rfl, rfl⟩, rfl, rfl⟩, fun im him => Or.inl him⟩
  | cons h rest ih =>
    intro s m seeds
    have hmem : ∀ (path : String) im,
        im ∈ (insert_slide_image s slideId h path none).1.slideImages →
        im ∈ s.slideImages ∨ im.imageType = none := by
      intro path im him
      have : im ∈ s.slideImages ++ [⟨s.nextImageId, slideId, h, path, none, none, none⟩] := him
      simp only [List.mem_append, List.mem_singleton] at this
      rcases this with h1 | h1
      · exact Or.inl h1
      · right
        rw [h1]
    have hctx : ∀ (path : String),
        preserves_slide_context s (insert_slide_image s slideId h path none).1 :=
      fun _ => ⟨⟨rfl, rfl, rfl, rfl⟩, rfl, rfl⟩
    unfold process_sub_images_loop
    cases hl : m.lookup h with
    | some path =>
      have h2 := ih (insert_slide_image s slideId h path none).1 m seeds
      refine ⟨preserves_slide_context_trans (hctx path) h2.1, ?_⟩
      intro im him
      rcases h2.2 im him with h3 | h3
      · exact hmem path im h3
      · exact Or.inr h3
    | none =>
      have h2 := ih (insert_slide_image s slideId h (sub_image_key h) none).1
        (m ++ [(h, sub_image_key h)])
        (seeds ++ [⟨(insert_slide_image s slideId h (sub_image_key h) none).2, h⟩])
      refine ⟨preserves_slide_context_trans (hctx (sub_image_key h)) h2.1, ?_⟩
      intro im him
      rcases h2.2 im him with h3 | h3
      · exact hmem (sub_image_key h) im h3
      · exact Or.inr h3

/-- The invariant the ingest page loop maintains after creating slides
0..n-1: the slides table holds exactly one slide per processed page (id j,
slide number j+1), the fresh-id counter stands at n, and every
`full_slide_render` row belongs to an already-created slide whose page
rendered successfully. -/
def IngestInv (renderOkAt : Nat → Bool) (n : Nat) (s : Store) : Prop :=
  (s.slides.map (fun sl => (sl.id, sl.slideNumber))
      = (List.range n).map (fun j => (j, j + 1))) ∧
  s.nextSlideId = n ∧
  (∀ im ∈ s.slideImages, im.imageType = some "full_slide_render" →
      im.slideId < n ∧ renderOkAt im.slideId = true)

/-- Processing the pages numbered n, n+1, ... preserves the invariant and
leaves the lecture-level fields (status, slide counters, explanations)
untouched. -/
theorem ingest_page_loop_inv (chunker : String → List (String × Nat))
    (renderOkAt : Nat → Bool) (ps : List Page) :
    ∀ (n : Nat) (s : Store) (m : List (Nat × String)) (seeds : List AnalysisJobSeed),
      (∀ j (hj : j < ps.length), renderOkAt (n + j) = (ps.get ⟨j, hj⟩).renderOk) →
      IngestInv renderOkAt n s →
      IngestInv renderOkAt (n + ps.length)
          (ingest_page_loop chunker (List.enumFrom n ps) s m seeds).1 ∧
      preserves_lecture_fields s (ingest_page_loop chunker (List.enumFrom n ps) s m seeds).1 := by
  induction ps with
  | nil =>
    intro n s m seeds _ hinv
    exact ⟨by simpa using hinv, ⟨rfl, rfl, rfl, rfl⟩⟩
  | cons p rest ih =>
    intro n s m seeds hrok hinv
    obtain ⟨hslides, hnext, himages⟩ := hinv
    -- the slide for page n does not exist yet
    have hfind : s.slides.find? (fun sl => sl.slideNumber == n + 1) = none := by
      apply List.find?_eq_none.mpr
      intro sl hsl
      have hpair : (sl.id, sl.slideNumber) ∈ (List.range n).map (fun j => (j, j + 1)) := by
        rw [← hslides]
        exact List.mem_map_of_mem _ hsl
      simp only [List.mem_map, List.mem_range] at hpair
      obtain ⟨j, hj, hje⟩ := hpair
      have hnum : sl.slideNumber = j + 1 := by
        have := congrArg Prod.snd hje
        simpa using this.symm
      simp only [hnum, beq_iff_eq]
      omega
    have hgoc1 : (get_or_create_slide s (n + 1) p.rawText).1
        = { s with
              slides := s.slides ++ [⟨n, n + 1, p.rawText, 0, 0⟩],
              nextSlideId := n + 1 } := by
      unfold get_or_create_slide
      rw [hfind, hnext]
    have hgoc2 : (get_or_create_slide s (n + 1) p.rawText).2 = n := by
      unfold get_or_create_slide
      rw [hfind, hnext]
    -- effects of the three sub-steps of this page
    have h2 := insert_chunks_loop_effect (get_or_create_slide s (n + 1) p.rawText).2 (n + 1)
      (chunker p.rawText) 0 (get_or_create_slide s (n + 1) p.rawText).1
    have h3 := render_and_upload_slide_image_effect p (n + 1)
      (get_or_create_slide s (n + 1) p.rawText).2
      (insert_chunks_loop (get_or_create_slide s (n + 1) p.rawText).2 (n + 1) 0
        (chunker p.rawText) (get_or_create_slide s (n + 1) p.rawText).1)
    have h4 := process_sub_images_loop_effect (get_or_create_slide s (n + 1) p.rawText).2
      p.images
      (render_and_upload_slide_image p (n + 1) (get_or_create_slide s (n + 1) p.rawText).2
        (insert_chunks_loop (get_or_create_slide s (n + 1) p.rawText).2 (n + 1) 0
          (chunker p.rawText) (get_or_create_slide s (n + 1) p.rawText).1))
      m seeds
    -- name the store entering the recursive call
    set s4 := (process_sub_images_loop (get_or_create_slide s (n + 1) p.rawText).2 p.images
      (render_and_upload_slide_image p (n + 1) (get_or_create_slide s (n + 1) p.rawText).2
        (insert_chunks_loop (get_or_create_slide s (n + 1) p.rawText).2 (n + 1) 0
          (chunker p.rawText) (get_or_create_slide s (n + 1) p.rawText).1))
      m seeds).1 with hs4
    have hstep : ingest_page_loop chunker (List.enumFrom n (p :: rest)) s m seeds
        = ingest_page_loop chunker (List.enumFrom (n + 1) rest) s4
            (process_sub_images_loop (get_or_create_slide s (n + 1) p.rawText).2 p.images
              (render_and_upload_slide_image p (n + 1)
                (get_or_create_slide s (n + 1) p.rawText).2
                (insert_chunks_loop (get_or_create_slide s (n + 1) p.rawText).2 (n + 1) 0
                  (chunker p.rawText) (get_or_create_slide s (n + 1) p.rawText).1))
              m seeds).2.1
            (process_sub_images_loop (get_or_create_slide s (n + 1) p.rawText).2 p.images
              (render_and_upload_slide_image p (n + 1)
                (get_or_create_slide s (n + 1) p.rawText).2
                (insert_chunks_loop (get_or_create_slide s (n + 1) p.rawText).2 (n + 1) 0
                  (chunker p.rawText) (get_or_create_slide s (n + 1) p.rawText).1))
              m seeds).2.2 := rfl
    -- the fields of the store entering the recursion
    have hs4slides : s4.slides = s.slides ++ [⟨n, n + 1, p.rawText, 0, 0⟩] := by
      rw [h4.1.2.1, h3.1.2.1, h2.1.2.1, hgoc1]
    have hs4next : s4.nextSlideId = n + 1 := by
      rw [h4.1.2.2, h3.1.2.2, h2.1.2.2, hgoc1]
    have hs4lecture : preserves_lecture_fields s s4 := by
      have hfirst : preserves_lecture_fields s (get_or_create_slide s (n + 1) p.rawText).1 := by
        rw [hgoc1]
        exact ⟨rfl, rfl, rfl, rfl⟩
      exact preserves_lecture_fields_trans hfirst
        (preserves_lecture_fields_trans h2.1.1
          (preserves_lecture_fields_trans h3.1.1 h4.1.1))
    have hinv4 : IngestInv renderOkAt (n + 1) s4 := by
      refine ⟨?_, hs4next, ?_⟩
      · rw [hs4slides, List.map_append, hslides, List.range_succ, List.map_append]
        simp
      · intro im him hty
        rcases h4.2 im him with hcase | hcase
        · rcases h3.2 im hcase with hcase2 | hcase2
          · rw [h2.2, hgoc1] at hcase2
            have h5 := himages im hcase2 hty
            exact ⟨by omega, h5.2⟩
          · rw [hgoc2] at hcase2
            refine ⟨by omega, ?_⟩
            rw [hcase2.2.1]
            have h0 := hrok 0 (by simp)
            rw [Nat.add_zero] at h0
            rw [h0]
            exact hcase2.2.2
        · rw [hcase] at hty
          cases hty
    have hrok1 : ∀ j (hj : j < rest.length),
        renderOkAt (n + 1 + j) = (rest.get ⟨j, hj⟩).renderOk := by
      intro j hj
      have h5 := hrok (j + 1) (by simpa using Nat.succ_lt_succ hj)
      have harith : n + (j + 1) = n + 1 + j := by omega
      rw [harith] at h5
      exact h5
    have hrec := ih (n + 1) s4
      (process_sub_images_loop (get_or_create_slide s (n + 1) p.rawText).2 p.images
        (render_and_upload_slide_image p (n + 1) (get_or_create_slide s (n + 1) p.rawText).2
          (insert_chunks_loop (get_or_create_slide s (n + 1) p.rawText).2 (n + 1) 0
            (chunker p.rawText) (get_or_create_slide s (n + 1) p.rawText).1))
        m seeds).2.1
      (process_sub_images_loop (get_or_create_slide s (n + 1) p.rawText).2 p.images
        (render_and_upload_slide_image p (n + 1) (get_or_create_slide s (n + 1) p.rawText).2
          (insert_chunks_loop (get_or_create_slide s (n + 1) p.rawText).2 (n + 1) 0
            (chunker p.rawText) (get_or_create_slide s (n + 1) p.rawText).1))
        m seeds).2.2
      hrok1 hinv4
    rw [hstep]
    have harith2 : n + 1 + rest.length = n + (rest.length + 1) := by omega
    rw [harith2] at hrec
    have hlen : n + (p :: rest).length = n + (rest.length + 1) := by simp
    rw [hlen]
    exact ⟨hrec.1, preserves_lecture_fields_trans hs4lecture hrec.2⟩

/-- One explanation delivery never changes the stored explanations or the
slide counters: every path that survives the guards reaches
`save_explanation`, whose `result.one_liner` access fails on the declared
schema, so the commit phase (insert + counter increment) is unreachable. -/
theorem process_explanation_job_cases (gen : Option ExplanationResult)
    (imageOk apiKeyOk : Bool) (slideId slideNumber : Nat) (s : Store) :
    (process_explanation_job gen imageOk apiKeyOk slideId slideNumber s).1.explanations
        = s.explanations ∧
    (process_explanation_job gen imageOk apiKeyOk slideId slideNumber s).1.processedSlides
        = s.processedSlides ∧
    (process_explanation_job gen imageOk apiKeyOk slideId slideNumber s).1.totalSlides
        = s.totalSlides := by
  cases hv : verify_lecture_exists s with
  | false => simp [process_explanation_job, hv]
  | true =>
    cases hex : explanation_exists s slideId with
    | true => simp [process_explanation_job, hv, hex]
    | false =>
      cases himg : imageOk with
      | false =>
        simp [process_explanation_job, hv, hex, himg, record_explanation_error]
      | true =>
        cases hkey : apiKeyOk with
        | false =>
          simp [process_explanation_job, hv, hex, himg, hkey, record_explanation_error]
        | true =>
          cases gen with
          | some res =>
            simp [process_explanation_job, hv, hex, himg, hkey, save_explanation,
              ExplanationResult.one_liner, record_explanation_error]
          | none =>
            simp [process_explanation_job, hv, hex, himg, hkey, save_explanation,
              ExplanationResult.one_liner, record_explanation_error]

/-- Delivering explanation jobs whose slide ids all come from `allowed`
keeps the processed counter equal to the number of stored explanations,
keeps their slide ids distinct and inside `allowed`, and never changes the
slide total. -/
theorem run_explanation_jobs_invariant (allowed : List Nat) (ds : List ExplanationDelivery) :
    ∀ (s : Store),
      (∀ d ∈ ds, d.slideId ∈ allowed) →
      s.processedSlides = s.explanations.length →
      ((s.explanations.map (fun e => e.slideId)).Nodup) →
      (∀ e ∈ s.explanations, e.slideId ∈ allowed) →
      ((run_explanation_jobs ds s).1.processedSlides
          = (run_explanation_jobs ds s).1.explanations.length ∧
        ((run_explanation_jobs ds s).1.explanations.map (fun e => e.slideId)).Nodup ∧
        (∀ e ∈ (run_explanation_jobs ds s).1.explanations, e.slideId ∈ allowed) ∧
        (run_explanation_jobs ds s).1.totalSlides = s.totalSlides) := by
  induction ds with
  | nil =>
    intro s _ h1 h2 h3
    exact ⟨h1, h2, h3, rfl⟩
  | cons d rest ih =>
    intro s hds h1 h2 h3
    have hstep : (run_explanation_jobs (d :: rest) s).1
        = (run_explanation_jobs rest
            (process_explanation_job d.gen d.imageOk d.apiKeyOk d.slideId d.slideNumber s).1).1 :=
      rfl
    have hcase := process_explanation_job_cases d.gen d.imageOk d.apiKeyOk d.slideId
      d.slideNumber s
    have hrec := ih
      (process_explanation_job d.gen d.imageOk d.apiKeyOk d.slideId d.slideNumber s).1
      (fun d2 hd2 => hds d2 (List.mem_cons_of_mem d hd2))
      (by rw [hcase.1, hcase.2.1]; exact h1)
      (by rw [hcase.1]; exact h2)
      (by rw [hcase.1]; exact h3)
    rw [hstep]
    exact ⟨hrec.1, hrec.2.1, hrec.2.2.1, hrec.2.2.2.trans hcase.2.2⟩

/-- A duplicate-free list of naturals all below n and all different from a
fixed k < n has fewer than n elements. -/
theorem nodup_list_length_lt (l : List Nat) (n k : Nat) (hnd : l.Nodup)
    (hmem : ∀ x ∈ l, x < n ∧ x ≠ k) (hk : k < n) : l.length < n := by
  have h1 : l.toFinset.card = l.length := List.toFinset_card_of_nodup hnd
  have h2 : l.toFinset ⊆ (Finset.range n).erase k := by
    intro x hx
    rw [List.mem_toFinset] at hx
    exact Finset.mem_erase.mpr ⟨(hmem x hx).2, Finset.mem_range.mpr (hmem x hx).1⟩
  have h3 := Finset.card_le_card h2
  rw [Finset.card_erase_of_mem (Finset.mem_range.mpr hk), Finset.card_range, h1] at h3
  omega

/-- Image-analysis dispatches carry no explanation-job slide ids. -/
theorem explanation_job_slide_ids_of_seeds (seeds : List AnalysisJobSeed) :
    explanation_job_slide_ids
        (seeds.map (fun sd => Job.imageAnalysis sd.slideImageId sd.imageHash)) = [] := by
  induction seeds with
  | nil => rfl
  | cons sd rest ih =>
    simp only [explanation_job_slide_ids, List.map_cons, List.filterMap_cons] at ih ⊢
    exact ih

/-- Every slide id published to the explanation topic by the ingest dispatch
comes from a `full_slide_render` row of that slide. -/
theorem explanation_job_ids_from_join (s : Store) (n sid : Nat)
    (hmem : sid ∈ explanation_job_slide_ids
        ((get_slides_with_images_for_lecture s).flatMap (fun row =>
          match row.2 with
          | some path => [Job.explanation row.1.id row.1.slideNumber n path]
          | none => []))) :
    ∃ im ∈ s.slideImages, im.imageType = some "full_slide_render" ∧ im.slideId = sid := by
  unfold explanation_job_slide_ids at hmem
  rw [List.mem_filterMap] at hmem
  obtain ⟨j, hj, hjf⟩ := hmem
  rw [List.mem_flatMap] at hj
  obtain ⟨row, hrow, hjrow⟩ := hj
  cases hrow2 : row.2 with
  | none =>
    rw [hrow2] at hjrow
    cases hjrow
  | some path =>
    rw [hrow2] at hjrow
    simp only [List.mem_singleton] at hjrow
    subst hjrow
    have hsid : row.1.id = sid := by simpa using hjf
    unfold get_slides_with_images_for_lecture at hrow
    rw [List.mem_flatMap] at hrow
    obtain ⟨sl, hsl, hrowin⟩ := hrow
    cases hfil : s.slideImages.filter
        (fun im => im.slideId == sl.id && im.imageType == some "full_slide_render") with
    | nil =>
      rw [hfil] at hrowin
      simp only [List.mem_singleton] at hrowin
      rw [hrowin] at hrow2
      cases hrow2
    | cons im0 ims =>
      rw [hfil] at hrowin
      rw [List.mem_map] at hrowin
      obtain ⟨im, him, hrowe⟩ := hrowin
      have him2 : im ∈ s.slideImages.filter
          (fun im2 => im2.slideId == sl.id && im2.imageType == some "full_slide_render") := by
        rw [hfil]
        exact him
      rw [List.mem_filter] at him2
      have hpred := him2.2
      simp only [Bool.and_eq_true, beq_iff_eq] at hpred
      refine ⟨im, him2.1, hpred.2, ?_⟩
      have hrow1 : row.1 = sl := by rw [← hrowe]
      rw [hpred.1, ← hsid, hrow1]

/-- Running `ingest` on a fresh store: the slide total matches the document,
the slide table has one slide per page (id j, number j+1), every rendered
full-slide row belongs to a page whose render succeeded, no explanation or
progress exists yet, and every published explanation job's slide id is the
id of a page whose render succeeded. -/
theorem ingest_fresh_facts (chunker : String → List (String × Nat)) (doc : List Page) :
    (ingest chunker doc fresh_store).1.totalSlides = doc.length ∧
    ((ingest chunker doc fresh_store).1.slides.map (fun sl => (sl.id, sl.slideNumber))
        = (List.range doc.length).map (fun j => (j, j + 1))) ∧
    (∀ im ∈ (ingest chunker doc fresh_store).1.slideImages,
        im.imageType = some "full_slide_render" →
          im.slideId < doc.length ∧ (doc.getD im.slideId default_page).renderOk = true) ∧
    (ingest chunker doc fresh_store).1.explanations = [] ∧
    (ingest chunker doc fresh_store).1.processedSlides = 0 ∧
    (∀ sid ∈ explanation_job_slide_ids (ingest chunker doc fresh_store).2,
        sid < doc.length ∧ (doc.getD sid default_page).renderOk = true) := by
  have hrok : ∀ j (hj : j < doc.length),
      (fun i => (doc.getD i default_page).renderOk) (0 + j) = (doc.get ⟨j, hj⟩).renderOk := by
    intro j hj
    simp only [Nat.zero_add]
    rw [List.getD_eq_getElem doc default_page hj]
    rfl
  have hinv0 : IngestInv (fun i => (doc.getD i default_page).renderOk) 0
      (set_lecture_parsing (clear_track_errors fresh_store) doc.length) := by
    refine ⟨rfl, rfl, ?_⟩
    intro im him
    cases him
  have hloop := ingest_page_loop_inv chunker (fun i => (doc.getD i default_page).renderOk)
    doc 0 (set_lecture_parsing (clear_track_errors fresh_store) doc.length) [] [] hrok hinv0
  have henum : doc.enum = List.enumFrom 0 doc := rfl
  rw [← henum] at hloop
  obtain ⟨⟨hslides, hnext, himages⟩, hstatus, htotal, hproc, hexpl⟩ := hloop
  have hfst : (ingest chunker doc fresh_store).1
      = update_lecture_status
          (update_lecture_sub_image_count
            (ingest_page_loop chunker doc.enum
              (set_lecture_parsing (clear_track_errors fresh_store) doc.length) [] []).1
            (ingest_page_loop chunker doc.enum
              (set_lecture_parsing (clear_track_errors fresh_store) doc.length) [] []).2.1.length)
          "explaining" := rfl
  refine ⟨?_, ?_, ?_, ?_, ?_, ?_⟩
  · rw [hfst]
    exact htotal
  · rw [hfst]
    rw [show (List.range doc.length).map (fun j => (j, j + 1))
        = (List.range (0 + doc.length)).map (fun j => (j, j + 1)) by rw [Nat.zero_add]]
    exact hslides
  · rw [hfst]
    intro im him hty
    have := himages im him hty
    rw [Nat.zero_add] at this
    exact this
  · rw [hfst]
    exact hexpl
  · rw [hfst]
    exact hproc
  · have hsnd : (ingest chunker doc fresh_store).2
        = ((get_slides_with_images_for_lecture
              (update_lecture_status
                (update_lecture_sub_image_count
                  (ingest_page_loop chunker doc.enum
                    (set_lecture_parsing (clear_track_errors fresh_store) doc.length) [] []).1
                  (ingest_page_loop chunker doc.enum
                    (set_lecture_parsing (clear_track_errors fresh_store) doc.length)
                    [] []).2.1.length)
                "explaining")).flatMap (fun row =>
            match row.2 with
            | some path => [Job.explanation row.1.id row.1.slideNumber doc.length path]
            | none => [])) ++
          (if (ingest_page_loop chunker doc.enum
                (set_lecture_parsing (clear_track_errors fresh_store) doc.length)
                [] []).2.1.length > 0 then
            ((ingest_page_loop chunker doc.enum
                (set_lecture_parsing (clear_track_errors fresh_store) doc.length)
                [] []).2.2.map (fun sd => Job.imageAnalysis sd.slideImageId sd.imageHash))
          else [Job.embedding]) := rfl
    have happ : ∀ (a b : List Job), explanation_job_slide_ids (a ++ b)
        = explanation_job_slide_ids a ++ explanation_job_slide_ids b := by
      intro a b
      simp [explanation_job_slide_ids]
    intro sid hsid
    rw [hsnd, happ, List.mem_append] at hsid
    rcases hsid with hsid | hsid
    · have hjoin := explanation_job_ids_from_join _ doc.length sid hsid
      obtain ⟨im, him, hty, hslid⟩ := hjoin
      have := himages im him hty
      rw [hslid, Nat.zero_add] at this
      exact this
    · exfalso
      have htail : explanation_job_slide_ids
          (if (ingest_page_loop chunker doc.enum
                (set_lecture_parsing (clear_track_errors fresh_store) doc.length)
                [] []).2.1.length > 0 then
            ((ingest_page_loop chunker doc.enum
                (set_lecture_parsing (clear_track_errors fresh_store) doc.length)
                [] []).2.2.map (fun sd => Job.imageAnalysis sd.slideImageId sd.imageHash))
          else [Job.embedding]) = [] := by
        split
        · exact explanation_job_slide_ids_of_seeds _
        · rfl
      rw [htail] at hsid
      cases hsid

/-- C9: when rendering the full-page image of page k fails during ingest,
the handler swallows the failure and runs to completion: the slide for page
k is still created (slide id k, slide number k+1, counted in the
`total_slides` = page count), it has no `full_slide_render` row, the ingest
dispatch publishes no explanation job carrying slide id k — and therefore,
whatever deliveries of the published explanation jobs later occur,
`processed_slides` stays strictly below `total_slides` for that lecture. -/
theorem render_failure_stalls_rendezvous (chunker : String → List (String × Nat))
    (doc : List Page) (k : Nat) (hk : k < doc.length)
    (hfail : (doc.getD k default_page).renderOk = false)
    (deliveries : List ExplanationDelivery)
    (hdel : ∀ d ∈ deliveries,
        d.slideId ∈ explanation_job_slide_ids (ingest chunker doc fresh_store).2) :
    (ingest chunker doc fresh_store).1.totalSlides = doc.length ∧
    ((ingest chunker doc fresh_store).1.slides.map (fun sl => (sl.id, sl.slideNumber))
        = (List.range doc.length).map (fun j => (j, j + 1))) ∧
    (∀ im ∈ (ingest chunker doc fresh_store).1.slideImages,
        im.slideId = k → im.imageType ≠ some "full_slide_render") ∧
    k ∉ explanation_job_slide_ids (ingest chunker doc fresh_store).2 ∧
    (run_explanation_jobs deliveries (ingest chunker doc fresh_store).1).1.processedSlides
        < (run_explanation_jobs deliveries
            (ingest chunker doc fresh_store).1).1.totalSlides := by
  obtain ⟨htot, hslides, himg, hexpl, hproc, hids⟩ := ingest_fresh_facts chunker doc
  refine ⟨htot, hslides, ?_, ?_, ?_⟩
  · intro im him hslid hty
    have h1 := (himg im him hty).2
    rw [hslid, hfail] at h1
    cases h1
  · intro hmem
    have h1 := (hids k hmem).2
    rw [hfail] at h1
    cases h1
  · obtain ⟨hlen, hnd, hmemall, htotrun⟩ := run_explanation_jobs_invariant
      (explanation_job_slide_ids (ingest chunker doc fresh_store).2) deliveries
      (ingest chunker doc fresh_store).1 hdel
      (by rw [hexpl, hproc]; rfl)
      (by rw [hexpl]; exact List.nodup_nil)
      (by rw [hexpl]; intro e he; cases he)
    have hprem : ∀ x ∈ (run_explanation_jobs deliveries
        (ingest chunker doc fresh_store).1).1.explanations.map (fun e => e.slideId),
        x < doc.length ∧ x ≠ k := by
      intro x hx
      rw [List.mem_map] at hx
      obtain ⟨e, he, hex⟩ := hx
      have hall := hmemall e he
      rw [hex] at hall
      have h2 := hids x hall
      refine ⟨h2.1, ?_⟩
      intro hxk
      rw [hxk, hfail] at h2
      exact absurd h2.2 (by simp)
    have hbound := nodup_list_length_lt
      ((run_explanation_jobs deliveries
        (ingest chunker doc fresh_store).1).1.explanations.map (fun e => e.slideId))
      doc.length k hnd hprem hk
    have hmap : ((run_explanation_jobs deliveries
        (ingest chunker doc fresh_store).1).1.explanations.map (fun e => e.slideId)).length
        = (run_explanation_jobs deliveries
            (ingest chunker doc fresh_store).1).1.explanations.length :=
      List.length_map _ _
    rw [htotrun, htot, hlen, ← hmap]
    exact hbound

/-- C9 (witness): a two-page document whose first page fails to render,
followed by the delivery of the one explanation job that was published (for
the second page's slide): processed_slides stays below total_slides. -/
theorem render_failure_stalls_rendezvous_witness :
    0 < ([⟨"page one", false, 9, []⟩, ⟨"page two", true, 5, []⟩] : List Page).length ∧
    (([⟨"page one", false, 9, []⟩, ⟨"page two", true, 5, []⟩] : List Page).getD 0
        default_page).renderOk = false ∧
    (run_explanation_jobs [⟨1, 2, some sample_explanation_result, true, true⟩]
        (ingest simple_chunker
          [⟨"page one", false, 9, []⟩, ⟨"page two", true, 5, []⟩] fresh_store).1).1.processedSlides
      < (run_explanation_jobs [⟨1, 2, some sample_explanation_result, true, true⟩]
          (ingest simple_chunker
            [⟨"page one", false, 9, []⟩, ⟨"page two", true, 5, []⟩] fresh_store).1).1.totalSlides :=
  ⟨by decide, by decide,
   (render_failure_stalls_rendezvous simple_chunker
      [⟨"page one", false, 9, []⟩, ⟨"page two", true, 5, []⟩] 0 (by decide) (by decide)
      [⟨1, 2, some sample_explanation_result, true, true⟩] (by decide)).2.2.2.2⟩

end Miniclue
